import Mathlib

/-!
Shallow embedding of `src/rag_pipeline.py` (RareDisease RAG system).

Python dynamic values that flow through the pipeline are modelled by a
JSON-like inductive type; Python dictionaries whose keys may be absent are
modelled with `Option` fields; a Python `KeyError` raised by a mandatory
subscript `d['k']` is modelled by `Except String` with an error value.
Machine floats never matter for these functions; JSON numbers are modelled
as integers.

JSON-like values (Python objects decoded from JSON) are given below with the
array and object spines as mutual inductives so that all functions on them
are structural recursions and evaluate by `rfl` / `decide`.
-/

mutual
inductive Json where
  | null : Json
  | bool : Bool → Json
  | num : Int → Json
  | str : String → Json
  | arr : JsonArr → Json
  | obj : JsonObj → Json

inductive JsonArr where
  | nil : JsonArr
  | cons : Json → JsonArr → JsonArr

inductive JsonObj where
  | nil : JsonObj
  | cons : String → Json → JsonObj → JsonObj
end

/-- `d.get(k)` on a Python dict: the value under the first matching key. -/
def JsonObj.lookup : JsonObj → String → Option Json
  | .nil, _ => none
  | .cons k v rest, key => if k == key then some v else rest.lookup key

/-- Python truthiness of a dict: non-empty. -/
def JsonObj.truthy : JsonObj → Bool
  | .nil => false
  | .cons _ _ _ => true

/-- JSON string escaping as `json.dumps` performs it (for the characters our
data can contain: backslash, double quote, and common control characters). -/
def escapeJsonChar (c : Char) : String :=
  if c = Char.ofNat 92 then "\\\\"
  else if c = Char.ofNat 34 then "\\\""
  else if c = Char.ofNat 10 then "\\n"
  else if c = Char.ofNat 9 then "\\t"
  else if c = Char.ofNat 13 then "\\r"
  else String.singleton c

def escapeJson (s : String) : String :=
  String.join (s.toList.map escapeJsonChar)

/-- `n` spaces: the indentation prefix written at nesting depth `d` by
`json.dumps(..., indent=2)` is `jpad (2*d)`. -/
def jpad : Nat → String
  | 0 => ""
  | n + 1 => " " ++ jpad n

/-!
`jdumps lvl v` is `json.dumps(v, indent=2)` emitted at nesting level `lvl`
(call sites in the source always start at level 0).  Empty containers render
as `[]` / `{}` on one line; a non-empty container opens its bracket, renders
each element on its own line indented two further spaces, separates elements
by `",\n"`, and closes the bracket at the parent indentation — exactly the
layout `json.dumps` produces with `indent=2`.  `jdumpsArrTail` /
`jdumpsObjTail` render `",\n" ++ indented item` for each remaining element.
-/
mutual
def jdumps : Nat → Json → String
  | _, .null => "null"
  | _, .bool true => "true"
  | _, .bool false => "false"
  | _, .num n => toString n
  | _, .str s => "\"" ++ escapeJson s ++ "\""
  | _, .arr .nil => "[]"
  | lvl, .arr (.cons x xs) =>
      "[\n" ++ jpad (2 * (lvl + 1)) ++ jdumps (lvl + 1) x
        ++ jdumpsArrTail (lvl + 1) xs ++ "\n" ++ jpad (2 * lvl) ++ "]"
  | _, .obj .nil => "\x7b\x7d"
  | lvl, .obj (.cons k v rest) =>
      "\x7b\n" ++ jpad (2 * (lvl + 1)) ++ "\"" ++ escapeJson k ++ "\": "
        ++ jdumps (lvl + 1) v ++ jdumpsObjTail (lvl + 1) rest
        ++ "\n" ++ jpad (2 * lvl) ++ "\x7d"

def jdumpsArrTail : Nat → JsonArr → String
  | _, .nil => ""
  | lvl, .cons y ys =>
      ",\n" ++ jpad (2 * lvl) ++ jdumps lvl y ++ jdumpsArrTail lvl ys

def jdumpsObjTail : Nat → JsonObj → String
  | _, .nil => ""
  | lvl, .cons k v rest =>
      ",\n" ++ jpad (2 * lvl) ++ "\"" ++ escapeJson k ++ "\": "
        ++ jdumps lvl v ++ jdumpsObjTail lvl rest
end

/-!
Python `str()` of a JSON-decoded value, as an f-string renders it: a string
renders as itself, everything else as its `repr` (dict/list repr with
single-quoted strings, `None` / `True` / `False` for the constants).
-/
mutual
def pyRepr : Json → String
  | .null => "None"
  | .bool true => "True"
  | .bool false => "False"
  | .num n => toString n
  | .str s => "\x27" ++ s ++ "\x27"
  | .arr .nil => "[]"
  | .arr (.cons x xs) => "[" ++ pyRepr x ++ pyReprArrTail xs ++ "]"
  | .obj .nil => "\x7b\x7d"
  | .obj (.cons k v rest) =>
      "\x7b" ++ "\x27" ++ k ++ "\x27: " ++ pyRepr v ++ pyReprObjTail rest ++ "\x7d"

def pyReprArrTail : JsonArr → String
  | .nil => ""
  | .cons y ys => ", " ++ pyRepr y ++ pyReprArrTail ys

def pyReprObjTail : JsonObj → String
  | .nil => ""
  | .cons k v rest => ", " ++ "\x27" ++ k ++ "\x27: " ++ pyRepr v ++ pyReprObjTail rest
end

def pyStr : Json → String
  | .str s => s
  | v => pyRepr v

example : jdumps 0 (Json.obj .nil) = "\x7b\x7d" := rfl
example : jdumps 0 (Json.obj (.cons "a" (Json.num 1) .nil)) = "\x7b\n  \"a\": 1\n\x7d" := rfl
example : toString (2020 : Int) = "2020" := rfl
example :
    jdumps 0 (Json.obj (.cons "a" (Json.num 1) (.cons "b" (Json.obj (.cons "c" (Json.str "x") .nil)) .nil)))
      = "\x7b\n  \"a\": 1,\n  \"b\": \x7b\n    \"c\": \"x\"\n  \x7d\n\x7d" := rfl

/-!
## Data model (spec §3) and the Document Builder (`prepare_documents`)

A `Paper` is a Python dict whose keys may be absent (`Option` fields); the
source reads `title`, `abstract`, `authors`, `journal`, `publication_date`
and `paper_id` by mandatory subscript `paper['k']` — an absent key raises
`KeyError`, modelled as `Except.error`.  Only the year is read with
`paper['publication_date'].get('year', '')`.
-/

structure Paper where
  paper_id : Option String
  title : Option String
  abstract : Option String
  authors : Option (List String)
  journal : Option String
  publication_date : Option JsonObj

structure DiseaseData where
  disease_info : Option JsonObj
  papers : Option (List Paper)

structure Document where
  text : String
  metadata : List (String × String)
deriving DecidableEq

/-- Truthiness of `data.get('disease_info')`: present and non-empty. -/
def infoTruthy : Option JsonObj → Bool
  | none => false
  | some o => o.truthy

/-- `disease_info.get(k, '')` rendered by the f-string (`''` when absent). -/
def getInfoStr (info : JsonObj) (k : String) : String :=
  match info.lookup k with
  | some v => pyStr v
  | none => ""

/-- `disease_info.get(k, {})`: the sub-mapping, `{}` when absent. -/
def getInfoJson (info : JsonObj) (k : String) : Json :=
  match info.lookup k with
  | some v => v
  | none => Json.obj .nil

/-- The `disease_text` f-string of `prepare_documents` (source lines 25–40),
with its exact newlines and 12-space indentation. -/
def clinical_text (disease_name : String) (disease_info : JsonObj) : String :=
  "\n            Disease Name: " ++ disease_name
    ++ "\n            Clinical Definition: " ++ getInfoStr disease_info "definition"
    ++ "\n\n            Clinical Features:\n            "
    ++ jdumps 0 (getInfoJson disease_info "clinical_features")
    ++ "\n\n            Genetic Information:\n            "
    ++ jdumps 0 (getInfoJson disease_info "genetic_info")
    ++ "\n\n            Natural History:\n            "
    ++ jdumps 0 (getInfoJson disease_info "natural_history")
    ++ "\n\n            Epidemiology:\n            "
    ++ jdumps 0 (getInfoJson disease_info "epidemiology")
    ++ "\n            "

/-- The `disease_doc` Document (source lines 42–49), metadata keys in the
order the dict literal writes them. -/
def disease_doc (disease_name : String) (disease_info : JsonObj) : Document :=
  { text := clinical_text disease_name disease_info,
    metadata := [("disease", disease_name), ("type", "clinical_info"), ("source", "Orphanet")] }

/-- Mandatory dict subscript `paper[field]`: `KeyError` when absent. -/
def req {α : Type} (field : String) : Option α → Except String α
  | some a => Except.ok a
  | none => Except.error ("KeyError: " ++ field)

/-- `paper['publication_date'].get('year', '')` as the f-string renders it. -/
def yearStr (publication_date : JsonObj) : String :=
  match publication_date.lookup "year" with
  | some v => pyStr v
  | none => ""

/-- The `paper_text` f-string (source lines 53–62), fields read in the order
the f-string evaluates them; an absent key is a `KeyError`. -/
def paper_text (paper : Paper) : Except String String := do
  let title ← req "title" paper.title
  let abstract ← req "abstract" paper.abstract
  let authors ← req "authors" paper.authors
  let journal ← req "journal" paper.journal
  let publication_date ← req "publication_date" paper.publication_date
  Except.ok ("\n            Title: " ++ title
    ++ "\n\n            Abstract:\n            " ++ abstract
    ++ "\n\n            Authors: " ++ String.intercalate ", " authors
    ++ "\n            Journal: " ++ journal
    ++ "\n            Publication Date: " ++ yearStr publication_date
    ++ "\n            ")

/-- The `paper_doc` Document (source lines 64–73); `paper['paper_id']` is
read in the metadata literal, after the text. -/
def paper_doc (disease_name : String) (paper : Paper) : Except String Document := do
  let txt ← paper_text paper
  let pid ← req "paper_id" paper.paper_id
  Except.ok { text := txt,
              metadata := [("disease", disease_name), ("type", "research_paper"),
                           ("paper_id", pid), ("source", "PubMed")] }

/-- The inner `for paper in data.get('papers', [])` loop: each built Document
is appended to the running `documents` list. -/
def paperLoop (disease_name : String) : List Paper → List Document → Except String (List Document)
  | [], acc => Except.ok acc
  | p :: ps, acc => do
      let d ← paper_doc disease_name p
      paperLoop disease_name ps (acc ++ [d])

/-- The outer `for disease_name, data in merged_data.items()` loop. -/
def diseaseLoop : List (String × DiseaseData) → List Document → Except String (List Document)
  | [], acc => Except.ok acc
  | (disease_name, data) :: rest, acc => do
      let acc1 := if infoTruthy data.disease_info then
          acc ++ [disease_doc disease_name (data.disease_info.getD JsonObj.nil)]
        else acc
      let acc2 ← paperLoop disease_name (data.papers.getD []) acc1
      diseaseLoop rest acc2

/-- `prepare_documents` (source lines 18–75): the Python dict iterates in
insertion order, modelled as an association list. -/
def prepare_documents (merged_data : List (String × DiseaseData)) : Except String (List Document) :=
  diseaseLoop merged_data []

/-!
Spec-side decompositions (used to state the refinement claims; written from
the spec's words, to be compared with `prepare_documents` above).
-/

/-- Fallible map, first error wins (explicit recursion, used by the spec-side
decompositions below). -/
def mapExcept {α β : Type} (f : α → Except String β) : List α → Except String (List β)
  | [] => Except.ok []
  | a :: as => do
      let b ← f a
      let bs ← mapExcept f as
      Except.ok (b :: bs)

/-- Per the spec: one record's Documents are its clinical_info Document (when
clinical info is non-empty) followed by one research_paper Document per paper,
in paper order. -/
def record_docs (disease_name : String) (data : DiseaseData) : Except String (List Document) := do
  let clinical := if infoTruthy data.disease_info then
      [disease_doc disease_name (data.disease_info.getD JsonObj.nil)] else []
  let pdocs ← mapExcept (paper_doc disease_name) (data.papers.getD [])
  Except.ok (clinical ++ pdocs)

/-- Per the spec: K papers yield K+1 Documents with non-empty clinical info,
K Documents otherwise. -/
def expected_count (data : DiseaseData) : Nat :=
  (if infoTruthy data.disease_info then 1 else 0) + (data.papers.getD []).length

/-!
## Query Dispatcher (`query_disease`, source lines 153–183)

The retrieval+synthesis backend is opaque: an index handle exposes
`as_query_engine(similarity_top_k, response_mode)`, and the engine exposes
`query(formatted_query, metadata_filters?)`.  Either call may raise, modelled
as `Except.error`.  The `try` body is `query_disease_raw`; `query_disease`
returns `str(response)` or the formatted error string.
-/

structure QueryEngine where
  query : String → Option (List (String × String)) → Except String String

structure RagIndex where
  asQueryEngine : Nat → String → Except String QueryEngine

/-- The scoped f-string template (source lines 162–166). -/
def scoped_query (disease_name q : String) : String :=
  "\n            Regarding " ++ disease_name ++ ":\n            " ++ q
    ++ "\n            Please provide evidence-based clinical information.\n            "

/-- The broad f-string template (source lines 173–176). -/
def broad_query (q : String) : String :=
  "\n            " ++ q
    ++ "\n            Please provide evidence-based clinical information about relevant rare diseases.\n            "

/-- The body of the `try` block: `if disease_name and disease_name != "All
Diseases"` picks the scoped template and the `{"disease": disease_name}`
metadata filter, otherwise the broad template with no filter. -/
def query_disease_raw (index : RagIndex) (q : String) (disease_name : Option String) :
    Except String String := do
  let query_engine ← index.asQueryEngine 5 "tree_summarize"
  match disease_name with
  | some dn =>
      if dn != "" && dn != "All Diseases" then
        query_engine.query (scoped_query dn q) (some [("disease", dn)])
      else
        query_engine.query (broad_query q) none
  | none => query_engine.query (broad_query q) none

/-- `query_disease`: any exception becomes `"Error during query: " + str(e)`. -/
def query_disease (index : RagIndex) (q : String) (disease_name : Option String) : String :=
  match query_disease_raw index q disease_name with
  | .ok response => response
  | .error e => "Error during query: " ++ e

/-!
## Collection Manager (`setup_chroma_store`, source lines 77–107)

Filesystem and ChromaDB effects are modelled by an environment giving each
external call's outcome, and the function's behaviour is its returned value,
the lines it prints, and the ordered trace of external actions it performs.
-/

deriving instance DecidableEq for Except

inductive FsAction where
  | rmtree : String → FsAction
  | sleep : Nat → FsAction
  | persistentClient : String → FsAction
  | createCollection : String → String → Nat → FsAction
deriving DecidableEq

structure ChromaEnv where
  persistDirExists : Bool
  rmtreeResult : Except String Unit
  clientResult : Except String Nat
  createCollectionResult : Except String Nat
deriving DecidableEq

structure SetupOutcome where
  result : Except String (Nat × Nat)
  logs : List String
  actions : List FsAction
deriving DecidableEq

/-- `setup_chroma_store`: when the persist directory exists, `shutil.rmtree`
runs inside an inner `try` whose `except` only prints a cleanup warning (the
`time.sleep(2)` that follows it is skipped when `rmtree` raised); the client
and collection are then created, and any exception from those steps is logged
by the outer `except` and re-raised. -/
def setup_chroma_store (env : ChromaEnv) (persist_dir : String) (embedding_dimension : Nat) :
    SetupOutcome :=
  let collection_name := "rare_diseases_collection"
  let pre : List FsAction × List String :=
    if env.persistDirExists then
      match env.rmtreeResult with
      | .ok _ => ([FsAction.rmtree persist_dir, FsAction.sleep 2], [])
      | .error e => ([FsAction.rmtree persist_dir], ["Directory cleanup warning: " ++ e])
    else ([], [])
  match env.clientResult with
  | .error e =>
      { result := .error e,
        logs := pre.2 ++ ["Error setting up ChromaDB: " ++ e],
        actions := pre.1 ++ [FsAction.persistentClient persist_dir] }
  | .ok client =>
      match env.createCollectionResult with
      | .error e =>
          { result := .error e,
            logs := pre.2 ++ ["Error setting up ChromaDB: " ++ e],
            actions := pre.1 ++ [FsAction.persistentClient persist_dir,
                                 FsAction.createCollection collection_name "cosine" embedding_dimension] }
      | .ok coll =>
          { result := .ok (coll, client),
            logs := pre.2,
            actions := pre.1 ++ [FsAction.persistentClient persist_dir,
                                 FsAction.createCollection collection_name "cosine" embedding_dimension] }

/-!
## Initialization and the query handler (source lines 109–151, 194–197)
-/

structure InitEnv where
  embedModelResult : Except String Unit
  chroma : ChromaEnv
  buildIndex : List Document → Except String RagIndex

/-- `initialize_rag_system`: embedding model construction, ChromaDB setup,
document preparation and index building run inside one `try`; any exception
yields `(None, "Error initializing system: ...")`. -/
def initialize_rag_system (env : InitEnv) (merged_data : List (String × DiseaseData)) :
    Option RagIndex × String :=
  let r : Except String RagIndex := do
    let _ ← env.embedModelResult
    let _ ← (setup_chroma_store env.chroma "./chroma_db" 768).result
    let documents ← prepare_documents merged_data
    env.buildIndex documents
  match r with
  | .ok index => (some index, "System initialized successfully with persistent storage!")
  | .error e => (none, "Error initializing system: " ++ e)

/-- `handle_query` generalized over the dispatcher it closes over: `if not
index` returns the fixed not-ready message, otherwise the dispatcher runs. -/
def handle_query_with (dispatch : RagIndex → String → Option String → String)
    (index : Option RagIndex) (q : String) (disease_name : Option String) : String :=
  match index with
  | none => "System initialization failed. Please check the logs."
  | some idx => dispatch idx q disease_name

/-- `handle_query` (source lines 194–197). -/
def handle_query (index : Option RagIndex) (q : String) (disease_name : Option String) : String :=
  handle_query_with query_disease index q disease_name

/-!
## Helper lemmas: the accumulator loops of `prepare_documents` compute the
join of the per-record document lists.
-/

lemma paperLoop_eq (n : String) (ps : List Paper) (acc : List Document) :
    paperLoop n ps acc = (mapExcept (paper_doc n) ps).map (fun ds => acc ++ ds) := by
  induction ps generalizing acc with
  | nil => simp [paperLoop, mapExcept, Except.map]
  | cons p ps ih =>
      cases hp : paper_doc n p with
      | error e => simp [paperLoop, mapExcept, hp, Except.map, Bind.bind, Except.bind]
      | ok d =>
          simp only [paperLoop, mapExcept, hp, Bind.bind, Except.bind]
          rw [ih]
          cases hm : mapExcept (paper_doc n) ps with
          | error e => simp [hm, Except.map]
          | ok ds => simp [hm, Except.map, List.append_assoc]

lemma diseaseLoop_cons (n : String) (d : DiseaseData) (rest : List (String × DiseaseData))
    (acc : List Document) :
    diseaseLoop ((n, d) :: rest) acc
      = (record_docs n d).bind (fun l => diseaseLoop rest (acc ++ l)) := by
  simp only [diseaseLoop, record_docs]
  rw [paperLoop_eq]
  cases hm : mapExcept (paper_doc n) (d.papers.getD []) with
  | error e =>
      cases hi : infoTruthy d.disease_info <;>
        simp [hi, Except.map, Except.bind, Bind.bind]
  | ok ds =>
      cases hi : infoTruthy d.disease_info <;>
        simp [hi, Except.map, Except.bind, Bind.bind, List.append_assoc]

lemma diseaseLoop_eq (m : List (String × DiseaseData)) (acc : List Document) :
    diseaseLoop m acc
      = (mapExcept (fun p => record_docs p.1 p.2) m).map (fun ls => acc ++ ls.flatten) := by
  induction m generalizing acc with
  | nil => simp [diseaseLoop, mapExcept, Except.map]
  | cons hd rest ih =>
      obtain ⟨n, d⟩ := hd
      rw [diseaseLoop_cons]
      simp only [mapExcept]
      cases hr : record_docs n d with
      | error e => simp [Except.bind, Bind.bind, Except.map]
      | ok l =>
          simp only [Bind.bind, Except.bind, ih]
          cases hms : mapExcept (fun p => record_docs p.1 p.2) rest with
          | error e => simp [Except.map]
          | ok ls => simp [Except.map, List.append_assoc]

lemma prepare_documents_eq (m : List (String × DiseaseData)) :
    prepare_documents m
      = (mapExcept (fun p => record_docs p.1 p.2) m).map (fun ls => ls.flatten) := by
  rw [prepare_documents, diseaseLoop_eq]
  cases mapExcept (fun p => record_docs p.1 p.2) m <;> simp [Except.map]

lemma mapExcept_ok_length {α β : Type} (f : α → Except String β) :
    ∀ (xs : List α) (ys : List β), mapExcept f xs = Except.ok ys → ys.length = xs.length := by
  intro xs
  induction xs with
  | nil =>
      intro ys h
      simp only [mapExcept] at h
      cases h
      rfl
  | cons a as ih =>
      intro ys h
      simp only [mapExcept, Bind.bind, Except.bind] at h
      cases hf : f a with
      | error e => rw [hf] at h; cases h
      | ok b =>
          rw [hf] at h
          cases hm : mapExcept f as with
          | error e => rw [hm] at h; cases h
          | ok bs =>
              rw [hm] at h
              cases h
              simp [ih bs hm]

lemma mapExcept_ok_mem {α β : Type} (f : α → Except String β) :
    ∀ (xs : List α) (ys : List β), mapExcept f xs = Except.ok ys →
      ∀ y ∈ ys, ∃ x ∈ xs, f x = Except.ok y := by
  intro xs
  induction xs with
  | nil =>
      intro ys h y hy
      simp only [mapExcept] at h
      cases h
      cases hy
  | cons a as ih =>
      intro ys h y hy
      simp only [mapExcept, Bind.bind, Except.bind] at h
      cases hf : f a with
      | error e => rw [hf] at h; cases h
      | ok b =>
          rw [hf] at h
          cases hm : mapExcept f as with
          | error e => rw [hm] at h; cases h
          | ok bs =>
              rw [hm] at h
              cases h
              cases hy with
              | head => exact ⟨a, List.mem_cons_self a as, hf⟩
              | tail _ htail =>
                  obtain ⟨x, hx, hfx⟩ := ih bs hm y htail
                  exact ⟨x, List.mem_cons_of_mem a hx, hfx⟩

lemma record_docs_length (n : String) (d : DiseaseData) (l : List Document)
    (h : record_docs n d = Except.ok l) : l.length = expected_count d := by
  simp only [record_docs, Bind.bind, Except.bind] at h
  cases hm : mapExcept (paper_doc n) (d.papers.getD []) with
  | error e => rw [hm] at h; cases h
  | ok pdocs =>
      rw [hm] at h
      cases h
      have hlen := mapExcept_ok_length (paper_doc n) _ _ hm
      cases hi : infoTruthy d.disease_info <;>
        simp [expected_count, hi, hlen, Nat.add_comm]

lemma record_docs_mem (n : String) (d : DiseaseData) (l : List Document)
    (h : record_docs n d = Except.ok l) :
    ∀ doc ∈ l,
      (infoTruthy d.disease_info = true ∧ doc = disease_doc n (d.disease_info.getD JsonObj.nil))
      ∨ ∃ p ∈ d.papers.getD [], paper_doc n p = Except.ok doc := by
  intro doc hdoc
  simp only [record_docs, Bind.bind, Except.bind] at h
  cases hm : mapExcept (paper_doc n) (d.papers.getD []) with
  | error e => rw [hm] at h; cases h
  | ok pdocs =>
      rw [hm] at h
      cases h
      cases hi : infoTruthy d.disease_info with
      | false =>
          rw [hi] at hdoc
          simp only [if_neg Bool.false_ne_true, List.nil_append] at hdoc
          exact Or.inr (mapExcept_ok_mem (paper_doc n) _ _ hm doc hdoc)
      | true =>
          rw [hi] at hdoc
          simp only [if_pos rfl, List.singleton_append] at hdoc
          cases hdoc with
          | head => exact Or.inl ⟨rfl, rfl⟩
          | tail _ htail => exact Or.inr (mapExcept_ok_mem (paper_doc n) _ _ hm doc htail)

lemma paper_doc_ok_meta (n : String) (p : Paper) (doc : Document)
    (h : paper_doc n p = Except.ok doc) :
    ∃ pid, p.paper_id = some pid
      ∧ doc.metadata = [("disease", n), ("type", "research_paper"),
                        ("paper_id", pid), ("source", "PubMed")] := by
  simp only [paper_doc, Bind.bind, Except.bind] at h
  cases ht : paper_text p with
  | error e => rw [ht] at h; cases h
  | ok txt =>
      rw [ht] at h
      cases hp : p.paper_id with
      | none => simp [req, hp] at h
      | some pid =>
          simp only [req, hp] at h
          cases h
          exact ⟨pid, rfl, rfl⟩

lemma mapExcept_record_docs_lengths :
    ∀ (m : List (String × DiseaseData)) (ls : List (List Document)),
      mapExcept (fun p => record_docs p.1 p.2) m = Except.ok ls →
      ls.map List.length = m.map (fun p => expected_count p.2) := by
  intro m
  induction m with
  | nil =>
      intro ls h
      simp only [mapExcept] at h
      cases h
      rfl
  | cons hd rest ih =>
      intro ls h
      simp only [mapExcept, Bind.bind, Except.bind] at h
      cases hr : record_docs hd.1 hd.2 with
      | error e => rw [hr] at h; cases h
      | ok l =>
          rw [hr] at h
          cases hm : mapExcept (fun p => record_docs p.1 p.2) rest with
          | error e => rw [hm] at h; cases h
          | ok ls2 =>
              rw [hm] at h
              cases h
              simp [record_docs_length hd.1 hd.2 l hr, ih ls2 hm]

/-!
## The claims
-/

/-- Claim C10: `prepare_documents` preserves order — its output is the
concatenation, in the input mapping's iteration order, of each record's
Documents, where a record contributes its clinical_info Document first (when
its clinical info is non-empty) and then one Document per paper in the order
of its papers list (that is what `record_docs` says). -/
theorem claim_C10_document_order (m : List (String × DiseaseData)) :
    prepare_documents m
      = (mapExcept (fun p => record_docs p.1 p.2) m).map (fun ls => ls.flatten) :=
  prepare_documents_eq m

/-- Claim C2: when `prepare_documents` succeeds, it emits, for every record,
K+1 Documents when the record's `disease_info` is non-empty and K Documents
when it is empty or absent, K the number of papers — so the total length is
the sum of the per-record expected counts. -/
theorem claim_C2_document_count (m : List (String × DiseaseData)) (docs : List Document)
    (h : prepare_documents m = Except.ok docs) :
    docs.length = (m.map (fun p => expected_count p.2)).sum := by
  rw [prepare_documents_eq] at h
  cases hm : mapExcept (fun p => record_docs p.1 p.2) m with
  | error e => rw [hm] at h; cases h
  | ok ls =>
      rw [hm] at h
      simp only [Except.map] at h
      cases h
      rw [List.length_flatten, mapExcept_record_docs_lengths m ls hm]

/-- Claim C7: every Document produced by `prepare_documents` carries the
required metadata: a clinical-info Document has `type=clinical_info`,
`source=Orphanet` and the disease name of some input record; a paper-derived
Document has `type=research_paper`, `source=PubMed`, the paper's `paper_id`
and the disease name of some input record owning that paper. -/
theorem claim_C7_metadata (m : List (String × DiseaseData)) (docs : List Document)
    (h : prepare_documents m = Except.ok docs) :
    ∀ doc ∈ docs,
      (List.lookup "type" doc.metadata = some "clinical_info"
        ∧ List.lookup "source" doc.metadata = some "Orphanet"
        ∧ ∃ n d, (n, d) ∈ m ∧ List.lookup "disease" doc.metadata = some n)
      ∨ (List.lookup "type" doc.metadata = some "research_paper"
        ∧ List.lookup "source" doc.metadata = some "PubMed"
        ∧ ∃ n d p, (n, d) ∈ m ∧ p ∈ d.papers.getD []
            ∧ List.lookup "paper_id" doc.metadata = p.paper_id
            ∧ List.lookup "disease" doc.metadata = some n) := by
  intro doc hdoc
  rw [prepare_documents_eq] at h
  cases hm : mapExcept (fun p => record_docs p.1 p.2) m with
  | error e => rw [hm] at h; cases h
  | ok ls =>
      rw [hm] at h
      simp only [Except.map] at h
      cases h
      rw [List.mem_flatten] at hdoc
      obtain ⟨l, hl, hdl⟩ := hdoc
      obtain ⟨⟨n, d⟩, hnd, hrec⟩ := mapExcept_ok_mem _ m ls hm l hl
      cases record_docs_mem n d l hrec doc hdl with
      | inl hc =>
          obtain ⟨hinfo, hdc⟩ := hc
          subst hdc
          exact Or.inl ⟨rfl, rfl, n, d, hnd, rfl⟩
      | inr hp =>
          obtain ⟨p, hpmem, hpdoc⟩ := hp
          obtain ⟨pid, hpid, hmeta⟩ := paper_doc_ok_meta n p doc hpdoc
          refine Or.inr ⟨?_, ?_, n, d, p, hnd, hpmem, ?_, ?_⟩ <;> rw [hmeta]
          · rfl
          · rfl
          · rw [hpid]; rfl
          · rfl

/-- Claim C6: the clinical-info Document text contains the disease name and
then the four JSON serializations — clinical features, genetic info, natural
history, epidemiology — in that fixed order, and any absent sub-mapping is
serialized as the empty mapping rendering. -/
theorem claim_C6_clinical_rendering (n : String) (info : JsonObj) :
    (∃ s0 s1 s2 s3 s4 s5,
       (disease_doc n info).text
         = s0 ++ n ++ s1 ++ jdumps 0 (getInfoJson info "clinical_features")
             ++ s2 ++ jdumps 0 (getInfoJson info "genetic_info")
             ++ s3 ++ jdumps 0 (getInfoJson info "natural_history")
             ++ s4 ++ jdumps 0 (getInfoJson info "epidemiology") ++ s5)
    ∧ (∀ k, info.lookup k = none → jdumps 0 (getInfoJson info k) = "\x7b\x7d") := by
  constructor
  · refine ⟨"\n            Disease Name: ",
      "\n            Clinical Definition: " ++ getInfoStr info "definition"
        ++ "\n\n            Clinical Features:\n            ",
      "\n\n            Genetic Information:\n            ",
      "\n\n            Natural History:\n            ",
      "\n\n            Epidemiology:\n            ",
      "\n            ", ?_⟩
    simp [disease_doc, clinical_text, String.append_assoc]
  · intro k hk
    simp [getInfoJson, hk, jdumps]

/-- One concrete paper dict lacking only its `title` key. -/
def paperNoTitle : Paper :=
  { paper_id := some "P1", title := none, abstract := some "A",
    authors := some ["Jane Doe"], journal := some "J",
    publication_date := some (.cons "year" (Json.num 2020) .nil) }

def missingTitleInput : List (String × DiseaseData) :=
  [("Fabry Disease", { disease_info := none, papers := some [paperNoTitle] })]

/-- Claim C3 counterexample: on a record whose single paper lacks its `title`
field, `prepare_documents` raises `KeyError` (modelled as `Except.error`)
instead of rendering the missing field as an empty string. -/
theorem claim_C3_counterexample :
    prepare_documents missingTitleInput = Except.error "KeyError: title" := rfl

/-- Claim C3 as amended: only a missing `year` inside `publication_date`
renders as an empty string; a Paper missing `title`, `abstract`, `authors`,
`journal`, `publication_date` or `paper_id` makes the builder raise
`KeyError` (the error of the first absent field in evaluation order). -/
theorem claim_C3_amended :
    (∀ (pid t a j : String) (au : List String) (pd : JsonObj),
       pd.lookup "year" = none →
       paper_text { paper_id := some pid, title := some t, abstract := some a,
                    authors := some au, journal := some j, publication_date := some pd }
         = Except.ok ("\n            Title: " ++ t
             ++ "\n\n            Abstract:\n            " ++ a
             ++ "\n\n            Authors: " ++ String.intercalate ", " au
             ++ "\n            Journal: " ++ j
             ++ "\n            Publication Date: " ++ "" ++ "\n            "))
    ∧ (∀ p : Paper, p.title = none → paper_text p = Except.error "KeyError: title")
    ∧ (∀ (p : Paper) (t : String), p.title = some t → p.abstract = none →
         paper_text p = Except.error "KeyError: abstract")
    ∧ (∀ (p : Paper) (t a : String), p.title = some t → p.abstract = some a →
         p.authors = none → paper_text p = Except.error "KeyError: authors")
    ∧ (∀ (p : Paper) (t a : String) (au : List String), p.title = some t →
         p.abstract = some a → p.authors = some au → p.journal = none →
         paper_text p = Except.error "KeyError: journal")
    ∧ (∀ (p : Paper) (t a j : String) (au : List String), p.title = some t →
         p.abstract = some a → p.authors = some au → p.journal = some j →
         p.publication_date = none → paper_text p = Except.error "KeyError: publication_date")
    ∧ (∀ (n : String) (p : Paper) (txt : String), paper_text p = Except.ok txt →
         p.paper_id = none → paper_doc n p = Except.error "KeyError: paper_id") := by
  refine ⟨?_, ?_, ?_, ?_, ?_, ?_, ?_⟩
  · intro pid t a j au pd hk
    simp [paper_text, req, yearStr, hk, Bind.bind, Except.bind]
  · intro p h
    simp [paper_text, req, h, Bind.bind, Except.bind]
  · intro p t h1 h2
    simp [paper_text, req, h1, h2, Bind.bind, Except.bind]
  · intro p t a h1 h2 h3
    simp [paper_text, req, h1, h2, h3, Bind.bind, Except.bind]
  · intro p t a au h1 h2 h3 h4
    simp [paper_text, req, h1, h2, h3, h4, Bind.bind, Except.bind]
  · intro p t a j au h1 h2 h3 h4 h5
    simp [paper_text, req, h1, h2, h3, h4, h5, Bind.bind, Except.bind]
  · intro n p txt ht hp
    simp [paper_doc, req, ht, hp, Bind.bind, Except.bind]

/-- What `query_disease` returns once the outcome of the backend call is
known: the response itself, or the formatted error string. -/
def answerOf : Except String String → String
  | .ok r => r
  | .error e => "Error during query: " ++ e

/-- Claim C1: with a specific disease scope (neither empty nor the
"All Diseases" sentinel) the backend is called with the scoped template —
disease name before the question, evidence-based-information instruction
after it — and the `{"disease": name}` equality filter; with the
"All Diseases" scope it is called with the broad template and no filter. -/
theorem claim_C1_scope_dispatch (index : RagIndex) (engine : QueryEngine) (q dn : String)
    (hE : index.asQueryEngine 5 "tree_summarize" = Except.ok engine)
    (h1 : dn ≠ "") (h2 : dn ≠ "All Diseases") :
    query_disease index q (some dn)
      = answerOf (engine.query (scoped_query dn q) (some [("disease", dn)]))
    ∧ query_disease index q (some "All Diseases")
      = answerOf (engine.query (broad_query q) none) := by
  constructor
  · have hcond : (dn != "" && dn != "All Diseases") = true := by
      simp [bne_iff_ne, h1, h2]
    simp only [query_disease, query_disease_raw, hE, Bind.bind, Except.bind, hcond, if_true]
    cases engine.query (scoped_query dn q) (some [("disease", dn)]) <;> rfl
  · simp only [query_disease, query_disease_raw, hE, Bind.bind, Except.bind]
    have hcond : (("All Diseases" != "") && ("All Diseases" != "All Diseases")) = false := by
      decide
    rw [hcond]
    simp only [Bool.false_eq_true, if_false]
    cases engine.query (broad_query q) none <;> rfl

/-- An engine that echoes back exactly what it was called with, so the
dispatch rule is observable. -/
def spyEngine : QueryEngine :=
  ⟨fun fq filt => Except.ok ((match filt with
     | none => "NOFILTER|"
     | some kvs =>
         "FILTER " ++ String.intercalate "," (kvs.map (fun kv => kv.1 ++ "=" ++ kv.2)) ++ "|")
     ++ fq)⟩

def spyIndex : RagIndex := ⟨fun _ _ => Except.ok spyEngine⟩

theorem claim_C1_witness :
    query_disease spyIndex "What are the main clinical manifestations?" (some "Fabry Disease")
      = answerOf (spyEngine.query
          (scoped_query "Fabry Disease" "What are the main clinical manifestations?")
          (some [("disease", "Fabry Disease")]))
    ∧ query_disease spyIndex "What are the main clinical manifestations?" (some "All Diseases")
      = answerOf (spyEngine.query (broad_query "What are the main clinical manifestations?") none) :=
  claim_C1_scope_dispatch spyIndex spyEngine "What are the main clinical manifestations?"
    "Fabry Disease" rfl (by decide) (by decide)

/-- Claim C4: whenever the retrieval or synthesis backend raises during
`query_disease` (the `try` body `query_disease_raw` yields an error), the
function returns a string starting with "Error" instead of propagating the
exception. -/
theorem claim_C4_error_string (index : RagIndex) (q : String) (dn : Option String) (e : String)
    (h : query_disease_raw index q dn = Except.error e) :
    ∃ rest, query_disease index q dn = "Error" ++ rest := by
  refine ⟨" during query: " ++ e, ?_⟩
  simp only [query_disease, h]
  have hsplit : "Error during query: " = "Error" ++ " during query: " := rfl
  rw [hsplit, String.append_assoc]

/-- An index whose backend always raises. -/
def failingIndex : RagIndex := ⟨fun _ _ => Except.error "ConnectionError"⟩

theorem claim_C4_witness :
    ∃ rest, query_disease failingIndex "What are the treatments?" none = "Error" ++ rest :=
  claim_C4_error_string failingIndex "What are the treatments?" none "ConnectionError" rfl

/-- Claim C9: a `None` or empty-string disease scope takes exactly the
"All Diseases" path — same result, same raw backend interaction, and when the
engine is available the call is the broad template with no filter. -/
theorem claim_C9_falsy_scope (index : RagIndex) (q : String) :
    query_disease index q none = query_disease index q (some "All Diseases")
    ∧ query_disease index q (some "") = query_disease index q (some "All Diseases")
    ∧ query_disease_raw index q none = query_disease_raw index q (some "All Diseases")
    ∧ ∀ engine, index.asQueryEngine 5 "tree_summarize" = Except.ok engine →
        query_disease_raw index q none = engine.query (broad_query q) none := by
  cases hE : index.asQueryEngine 5 "tree_summarize" with
  | error e =>
      refine ⟨?_, ?_, ?_, ?_⟩
      · simp [query_disease, query_disease_raw, hE, Bind.bind, Except.bind]
      · simp [query_disease, query_disease_raw, hE, Bind.bind, Except.bind]
      · simp [query_disease_raw, hE, Bind.bind, Except.bind]
      · intro engine hEng
        simp at hEng
  | ok engine =>
      refine ⟨?_, ?_, ?_, ?_⟩
      · simp [query_disease, query_disease_raw, hE, Bind.bind, Except.bind]
      · simp [query_disease, query_disease_raw, hE, Bind.bind, Except.bind]
      · simp [query_disease_raw, hE, Bind.bind, Except.bind]
      · intro engine2 hEng
        cases hEng
        simp [query_disease_raw, hE, Bind.bind, Except.bind]

/-- An environment in which the persist directory exists and deleting it
fails with a permission error, while the client and collection steps succeed. -/
def sweptEnv : ChromaEnv :=
  { persistDirExists := true, rmtreeResult := Except.error "Permission denied",
    clientResult := Except.ok 1, createCollectionResult := Except.ok 2 }

/-- Claim C5 counterexample: when deleting the existing persistence directory
fails, `setup_chroma_store` does not re-raise — it only prints a cleanup
warning and returns a successfully created collection. -/
theorem claim_C5_counterexample :
    (setup_chroma_store sweptEnv "./chroma_db" 768).result = Except.ok (2, 1)
    ∧ (setup_chroma_store sweptEnv "./chroma_db" 768).logs
        = ["Directory cleanup warning: Permission denied"] := ⟨rfl, rfl⟩

/-- Claim C5 as amended: when the persistence directory exists it is deleted
recursively first (before any creation step); a failure of that deletion is
caught, logged as a cleanup warning, and setup continues exactly as if the
deletion had succeeded — it is not re-raised; failures of the subsequent
client/collection creation are logged and re-raised. -/
theorem claim_C5_amended (env : ChromaEnv) (persist_dir : String) (dim : Nat) (e : String)
    (hex : env.persistDirExists = true) (hrm : env.rmtreeResult = Except.error e) :
    (∃ rest, (setup_chroma_store env persist_dir dim).actions
        = FsAction.rmtree persist_dir :: rest)
    ∧ ("Directory cleanup warning: " ++ e) ∈ (setup_chroma_store env persist_dir dim).logs
    ∧ (setup_chroma_store env persist_dir dim).result
        = (setup_chroma_store { env with rmtreeResult := Except.ok () } persist_dir dim).result
    ∧ (∀ e2, env.clientResult = Except.error e2 →
         (setup_chroma_store env persist_dir dim).result = Except.error e2
         ∧ ("Error setting up ChromaDB: " ++ e2) ∈ (setup_chroma_store env persist_dir dim).logs)
    ∧ (∀ c e2, env.clientResult = Except.ok c → env.createCollectionResult = Except.error e2 →
         (setup_chroma_store env persist_dir dim).result = Except.error e2
         ∧ ("Error setting up ChromaDB: " ++ e2) ∈ (setup_chroma_store env persist_dir dim).logs)
    ∧ (∀ c cl, env.clientResult = Except.ok cl → env.createCollectionResult = Except.ok c →
         FsAction.createCollection "rare_diseases_collection" "cosine" dim
           ∈ (setup_chroma_store env persist_dir dim).actions
         ∧ (setup_chroma_store env persist_dir dim).result = Except.ok (c, cl)) := by
  cases hc : env.clientResult with
  | error e2 =>
      refine ⟨⟨[FsAction.persistentClient persist_dir], ?_⟩, ?_, ?_, ?_, ?_, ?_⟩ <;>
        simp [setup_chroma_store, hex, hrm, hc]
  | ok cl =>
      cases hcc : env.createCollectionResult with
      | error e2 =>
          refine ⟨⟨[FsAction.persistentClient persist_dir,
              FsAction.createCollection "rare_diseases_collection" "cosine" dim], ?_⟩,
              ?_, ?_, ?_, ?_, ?_⟩ <;>
            simp [setup_chroma_store, hex, hrm, hc, hcc]
      | ok c =>
          refine ⟨⟨[FsAction.persistentClient persist_dir,
              FsAction.createCollection "rare_diseases_collection" "cosine" dim], ?_⟩,
              ?_, ?_, ?_, ?_, ?_⟩ <;>
            simp [setup_chroma_store, hex, hrm, hc, hcc]

theorem claim_C5_witness :
    (∃ rest, (setup_chroma_store sweptEnv "./chroma_db" 768).actions
        = FsAction.rmtree "./chroma_db" :: rest)
    ∧ ("Directory cleanup warning: " ++ "Permission denied")
        ∈ (setup_chroma_store sweptEnv "./chroma_db" 768).logs
    ∧ (setup_chroma_store sweptEnv "./chroma_db" 768).result
        = (setup_chroma_store { sweptEnv with rmtreeResult := Except.ok () } "./chroma_db" 768).result
    ∧ (∀ e2, sweptEnv.clientResult = Except.error e2 →
         (setup_chroma_store sweptEnv "./chroma_db" 768).result = Except.error e2
         ∧ ("Error setting up ChromaDB: " ++ e2) ∈ (setup_chroma_store sweptEnv "./chroma_db" 768).logs)
    ∧ (∀ c e2, sweptEnv.clientResult = Except.ok c → sweptEnv.createCollectionResult = Except.error e2 →
         (setup_chroma_store sweptEnv "./chroma_db" 768).result = Except.error e2
         ∧ ("Error setting up ChromaDB: " ++ e2) ∈ (setup_chroma_store sweptEnv "./chroma_db" 768).logs)
    ∧ (∀ c cl, sweptEnv.clientResult = Except.ok cl → sweptEnv.createCollectionResult = Except.ok c →
         FsAction.createCollection "rare_diseases_collection" "cosine" 768
           ∈ (setup_chroma_store sweptEnv "./chroma_db" 768).actions
         ∧ (setup_chroma_store sweptEnv "./chroma_db" 768).result = Except.ok (c, cl)) :=
  claim_C5_amended sweptEnv "./chroma_db" 768 "Permission denied" rfl rfl

/-- Claim C8: when initialization fails (`initialize_rag_system` returns a
null index), every query submitted through the handler returns the fixed
not-ready message, whatever dispatcher the handler would otherwise call — so
the Query Dispatcher is never invoked from a non-ready state. -/
theorem claim_C8_not_ready (env : InitEnv) (data : List (String × DiseaseData))
    (q : String) (dn : Option String) (dispatch : RagIndex → String → Option String → String)
    (h : (initialize_rag_system env data).1 = none) :
    handle_query_with dispatch (initialize_rag_system env data).1 q dn
      = "System initialization failed. Please check the logs." := by
  rw [h]
  rfl

/-- An initialization environment whose embedding-model construction raises. -/
def failingInitEnv : InitEnv :=
  { embedModelResult := Except.error "HFValidationError",
    chroma := { persistDirExists := false, rmtreeResult := Except.ok (),
                clientResult := Except.ok 0, createCollectionResult := Except.ok 0 },
    buildIndex := fun _ => Except.error "no index" }

theorem claim_C8_witness :
    handle_query_with query_disease (initialize_rag_system failingInitEnv []).1
      "What are the treatments?" none
      = "System initialization failed. Please check the logs." :=
  claim_C8_not_ready failingInitEnv [] "What are the treatments?" none query_disease rfl

/-- A paper dict with every key present. -/
def fullPaper : Paper :=
  { paper_id := some "P1", title := some "T", abstract := some "A",
    authors := some ["Jane Doe"], journal := some "J",
    publication_date := some (.cons "year" (Json.num 2020) .nil) }

/-- Two records: one with non-empty clinical info and one paper, one with
empty clinical info and no papers key. -/
def twoDiseaseInput : List (String × DiseaseData) :=
  [("Fabry Disease",
     { disease_info := some (.cons "definition" (Json.str "X") .nil),
       papers := some [fullPaper] }),
   ("Gaucher Disease", { disease_info := some JsonObj.nil, papers := none })]

def twoDiseaseDocs : List Document := ((prepare_documents twoDiseaseInput).toOption).getD []

theorem claim_C2_witness :
    twoDiseaseDocs.length = (twoDiseaseInput.map (fun p => expected_count p.2)).sum :=
  claim_C2_document_count twoDiseaseInput twoDiseaseDocs rfl

/-- A one-record, one-paper input for exercising the metadata invariant. -/
def paperOnlyInput : List (String × DiseaseData) :=
  [("Fabry Disease", { disease_info := none, papers := some [fullPaper] })]

def paperOnlyDocs : List Document := ((prepare_documents paperOnlyInput).toOption).getD []

def paperOnlyDoc : Document := paperOnlyDocs.getD 0 { text := "", metadata := [] }

theorem claim_C7_witness :
    (List.lookup "type" paperOnlyDoc.metadata = some "clinical_info"
      ∧ List.lookup "source" paperOnlyDoc.metadata = some "Orphanet"
      ∧ ∃ n d, (n, d) ∈ paperOnlyInput ∧ List.lookup "disease" paperOnlyDoc.metadata = some n)
    ∨ (List.lookup "type" paperOnlyDoc.metadata = some "research_paper"
      ∧ List.lookup "source" paperOnlyDoc.metadata = some "PubMed"
      ∧ ∃ n d p, (n, d) ∈ paperOnlyInput ∧ p ∈ d.papers.getD []
          ∧ List.lookup "paper_id" paperOnlyDoc.metadata = p.paper_id
          ∧ List.lookup "disease" paperOnlyDoc.metadata = some n) :=
  claim_C7_metadata paperOnlyInput paperOnlyDocs rfl paperOnlyDoc (by decide)
